import Mathlib

/-!
Verification of the BOT-FORGE pipeline core: a shallow embedding in Lean 4 of
the staged pipeline orchestrator (`core/pipeline.py`), the planner
(`agents/planner.py`), the docs retriever (`agents/retriever.py`), the
generator (`agents/generator.py`), the tester (`agents/tester.py`), the
reviewer (`agents/reviewer.py`) and the packager (`agents/packager.py`),
together with theorems settling the frozen claims about them.

File-system and subprocess effects are modelled explicitly: directories,
template names, compile exit codes and test-runner exit codes are parameters,
and the persistence collaborator (`repo.save`) is modelled as an event trace.
-/

namespace BotForge

/-- Target platform enumeration (`core/models.py` `Platform`; members and their
string values are fixed by `agents/planner.py` and `agents/retriever.py`). -/
inductive Platform where
  | TELEGRAM
  | DISCORD
  | SLACK
  | CLI
  | WEB_API
  | CUSTOM
deriving DecidableEq, Repr

/-- String value of a platform member (`Platform.value` in the source). -/
def Platform.value : Platform → String
  | .TELEGRAM => "telegram"
  | .DISCORD => "discord"
  | .SLACK => "slack"
  | .CLI => "cli"
  | .WEB_API => "web_api"
  | .CUSTOM => "custom"

/-- Declared environment-variable requirement (`EnvVarSpec`). -/
structure EnvVarSpec where
  name : String
  description : String
deriving DecidableEq, Repr

/-- Validated bot specification (`BotSpec`): the input to the pipeline.
Validation (slug normalisation, minimum lengths) happens before the core is
entered, so the embedding takes the already-validated field values. -/
structure BotSpec where
  name : String
  platform : Platform
  description : String
  features : List String
  dependencies : List String
  env_vars : List EnvVarSpec
  include_docker : Bool
  include_ci : Bool
  include_tests : Bool
  logging_level : String
deriving DecidableEq, Repr

/-- Derived project plan (`ProjectPlan`). -/
structure ProjectPlan where
  spec : BotSpec
  files_to_generate : List String
  platform_deps : List String
  context_notes : List String
deriving DecidableEq, Repr

/-- Test outcome (`TestResult`). The free-form combined output text is
modelled as the list of segments the source accumulates in `outputs` and
joins with a newline when storing (`"\n".join(outputs)`); the join is pure
presentation and no claim depends on the joined form. -/
structure TestResult where
  passed : Bool
  total : Nat
  failures : Nat
  output : List String
deriving DecidableEq, Repr

/-- Review outcome (`ReviewReport`). -/
structure ReviewReport where
  passed : Bool
  issues : List String
  warnings : List String
deriving DecidableEq, Repr

/-- Pipeline stage enumeration (`PipelineStage`): eight non-terminal stages in
required order, the success terminal `DONE`, and the failure terminal
`FAILED`. -/
inductive PipelineStage where
  | INTAKE
  | PLAN
  | RETRIEVE_DOCS
  | GENERATE
  | TEST
  | REVIEW
  | PACKAGE
  | DEPLOY
  | DONE
  | FAILED
deriving DecidableEq, Repr

/-- Durable job record (`JobRecord`). Modelled from the spec: `core/models.py`
is not among the sources, only its unit tests and callers are; fields follow
§3 of the spec and the unit tests (creation/update timestamps are not
modelled, no claim mentions them). -/
structure JobRecord where
  id : String
  spec : BotSpec
  stage : PipelineStage
  output_path : Option String
  test_result : Option TestResult
  review_report : Option ReviewReport
  error : Option String
deriving DecidableEq, Repr

/-- Modelled from the spec: `JobRecord` construction — a fresh record has a
fixed-length opaque identifier, the given specification, the initial stage
`INTAKE` and no optional attribute populated (`JobRecord(spec=spec)`;
the unit tests check `job.stage == PipelineStage.INTAKE`,
`job.error is None`, `len(job.id) == 12`). -/
def JobRecord.new (spec : BotSpec) : JobRecord :=
  { id := "0123456789ab"
    spec := spec
    stage := .INTAKE
    output_path := none
    test_result := none
    review_report := none
    error := none }

/-- Modelled from the spec: `JobRecord.advance(next_stage)` — the only
state-changing operation besides `fail`; it sets the current stage to the
given one (the orchestrator alone decides ordering). -/
def JobRecord.advance (job : JobRecord) (next : PipelineStage) : JobRecord :=
  { job with stage := next }

/-- Modelled from the spec: `JobRecord.fail(message)` — transitions to the
terminal failure state recording the message. -/
def JobRecord.fail (job : JobRecord) (message : String) : JobRecord :=
  { job with stage := .FAILED, error := some message }

/-! ### Planner (`agents/planner.py`) -/

/-- Maps platform to additional pip dependencies (`PLATFORM_DEPS`); the
source's `dict.get(platform, [])` degrades to `[]`, which the total function
renders directly. -/
def PLATFORM_DEPS : Platform → List String
  | .TELEGRAM => ["python-telegram-bot>=20.7"]
  | .DISCORD => ["discord.py>=2.3.0"]
  | .SLACK => ["slack-bolt>=1.18.0"]
  | .CLI => ["click>=8.1.7"]
  | .WEB_API => ["fastapi>=0.104.0", "uvicorn[standard]>=0.24.0"]
  | .CUSTOM => []

/-- Standard files every generated bot includes (`BASE_FILES`). -/
def BASE_FILES : List String :=
  ["README.md", "requirements.txt", ".env.example", ".gitignore", "main.py",
   "config.py", "bot/__init__.py", "bot/handler.py", "bot/logger_setup.py"]

/-- Container files block (`DOCKER_FILES`). -/
def DOCKER_FILES : List String := ["Dockerfile", "docker-compose.yml", ".dockerignore"]

/-- CI files block (`CI_FILES`). -/
def CI_FILES : List String := [".github/workflows/ci.yml"]

/-- Test scaffolding files block (`TEST_FILES`). -/
def TEST_FILES : List String := ["tests/__init__.py", "tests/test_handler.py"]

/-- Planner entry `build_plan(spec)`: base files plus conditional blocks; combined
dependency list, platform deps first; human-readable notes. -/
def build_plan (spec : BotSpec) : ProjectPlan :=
  let files0 := BASE_FILES
  let files1 := if spec.include_docker then files0 ++ DOCKER_FILES else files0
  let files2 := if spec.include_ci then files1 ++ CI_FILES else files1
  let files3 := if spec.include_tests then files2 ++ TEST_FILES else files2
  let platform_deps := PLATFORM_DEPS spec.platform
  let all_deps := platform_deps ++ spec.dependencies
  let notes :=
    ["Platform: " ++ spec.platform.value,
     "Features: " ++ String.intercalate ", " spec.features,
     "Total files to generate: " ++ toString files3.length]
  { spec := spec
    files_to_generate := files3
    platform_deps := all_deps
    context_notes := notes }

/-! ### Docs retriever (`agents/retriever.py`) -/

/-- Embedded best-practice snippet per platform (`PLATFORM_GUIDES`); only the
platform-to-nonempty-string shape matters for the claims, so the strings are
abbreviated to their lead sentence. -/
def PLATFORM_GUIDES : Platform → String
  | .TELEGRAM => "Use python-telegram-bot v20+ with ApplicationBuilder pattern."
  | .DISCORD => "Use discord.py v2+ with commands.Bot or Client."
  | .SLACK => "Use slack-bolt with App(token=...)."
  | .CLI => "Use click for CLI argument parsing."
  | .WEB_API => "Use FastAPI with APIRouter."
  | .CUSTOM => "No platform-specific guidance. Implement a generic main.py entry point."

/-- Retriever entry `retrieve_context(plan)`: appends the platform guide as a context note
when non-empty. -/
def retrieve_context (plan : ProjectPlan) : ProjectPlan :=
  let guide := PLATFORM_GUIDES plan.spec.platform
  if guide ≠ "" then
    { plan with context_notes := plan.context_notes ++ ["Platform guide: " ++ guide] }
  else
    plan

/-! ### Generator (`agents/generator.py`)

The Jinja2 environment is modelled by the set of loadable template names
(`templates : List String`; a name is loadable when the corresponding `.j2`
file exists under the configured loader directories) together with the two
existence booleans `_build_jinja_env` actually inspects. -/

/-- Environment builder `_build_jinja_env`: raises `FileNotFoundError` when neither the templates
root nor its `common` subdirectory exists; otherwise builds the environment. -/
def _build_jinja_env (root_exists common_exists : Bool) (templates_dir : String) :
    Except String Unit :=
  if !root_exists && !common_exists then
    .error ("Templates directory not found: " ++ templates_dir)
  else
    .ok ()

/-- Resolution `_resolve_template(env, platform, rel_path)`: tries the platform-specific
candidate then the common candidate, returning the first loadable one. -/
def _resolve_template (templates : List String) (platform rel_path : String) :
    Option String :=
  let candidates := [platform ++ "/" ++ rel_path ++ ".j2", rel_path ++ ".j2"]
  candidates.find? (fun c => templates.contains c)

/-- Template context built once per generation run (the `ctx` dict in
`generate_project`). -/
structure GenCtx where
  spec : BotSpec
  plan : ProjectPlan
  platform : String
  bot_name : String
  description : String
  features : List String
  env_vars : List EnvVarSpec
  dependencies : List String
  logging_level : String
  include_docker : Bool
  include_ci : Bool
  include_tests : Bool
deriving DecidableEq, Repr

/-- The fixed context object every resolved template is rendered with
(`ctx = {...}` in `generate_project`). -/
def template_ctx (plan : ProjectPlan) : GenCtx :=
  { spec := plan.spec
    plan := plan
    platform := plan.spec.platform.value
    bot_name := plan.spec.name
    description := plan.spec.description
    features := plan.spec.features
    env_vars := plan.spec.env_vars
    dependencies := plan.platform_deps ++ plan.spec.dependencies
    logging_level := plan.spec.logging_level
    include_docker := plan.spec.include_docker
    include_ci := plan.spec.include_ci
    include_tests := plan.spec.include_tests }

/-- Result of a generation run: the populated project directory, the relative
paths actually rendered (in plan order), and the warnings recorded for
skipped files. -/
structure GenResult where
  project_dir : String
  rendered : List String
  warnings : List String
deriving DecidableEq, Repr

/-- The per-file loop of `generate_project`: resolve each planned path;
a missing template records a warning and continues, a resolved one renders
and writes the file (recorded by its relative path). -/
def gen_loop (templates : List String) (platform : String) :
    List String → List String × List String → List String × List String
  | [], acc => acc
  | rel_path :: rest, (rendered, warns) =>
    match _resolve_template templates platform rel_path with
    | none =>
        gen_loop templates platform rest
          (rendered, warns ++ ["No template found for " ++ rel_path ++ ", skipping"])
    | some _ =>
        gen_loop templates platform rest (rendered ++ [rel_path], warns)

/-- Generator entry `generate_project(plan, templates_dir, output_dir)`. The first component
of the result is the directory-creation trace (`project_dir.mkdir` runs
before the environment is built, so it appears even when the environment
raises); the second is the outcome. -/
def generate_project (root_exists common_exists : Bool) (templates : List String)
    (plan : ProjectPlan) (templates_dir output_dir : String) :
    List String × Except String GenResult :=
  let project_dir := output_dir ++ "/" ++ plan.spec.name
  let created := [project_dir]
  match _build_jinja_env root_exists common_exists templates_dir with
  | .error e => (created, .error e)
  | .ok _ =>
    let (rendered, warns) :=
      gen_loop templates plan.spec.platform.value plan.files_to_generate ([], [])
    (created, .ok { project_dir := project_dir, rendered := rendered, warnings := warns })

/-! ### Tester (`agents/tester.py`)

Subprocess results are parameters: each generated `.py` file carries the exit
code of its `py_compile` run, and one exit code plus captured output stands
for the single `pytest` invocation. -/

/-- Auxiliary scan: does `pat` occur as a prefix of some suffix of the
character list? -/
def strContainsAux (pat : List Char) : List Char → Bool
  | [] => pat.isPrefixOf []
  | c :: rest => pat.isPrefixOf (c :: rest) || strContainsAux pat rest

/-- String containment test (`pattern in content` in Python), computed over
the character lists. -/
def containsStr (s pat : String) : Bool :=
  strContainsAux pat.data s.data

/-- Suffix test (`str.endswith` / a `rglob("*.py")` match), computed over the
character lists. -/
def endsWithStr (s suffix : String) : Bool :=
  suffix.data.isSuffixOf s.data

/-- The file-system and subprocess view `run_tests` observes. -/
structure TesterEnv where
  py_files : List (String × Nat)
  tests_dir_exists : Bool
  test_files : List String
  pytest_exit : Nat
  pytest_output : String
deriving DecidableEq, Repr

/-- Tester entry `run_tests(project_dir)`: per-file compile check, then one pytest run iff
a `tests` directory with `test_*.py` files exists; `test_failures` is never
incremented by the source, so `failures` counts only compile failures. -/
def run_tests (env : TesterEnv) : TestResult :=
  let compile_failures := (env.py_files.filter (fun p => p.2 != 0)).length
  let outputs0 := env.py_files.filterMap
    (fun p => if p.2 != 0 then some ("COMPILE FAIL " ++ p.1 ++ ": ") else none)
  let outputs1 := outputs0 ++
    ["Compile check: " ++ toString (env.py_files.length - compile_failures) ++ "/" ++
     toString env.py_files.length ++ " OK"]
  let all_passed0 := if compile_failures != 0 then false else true
  let test_phase := env.tests_dir_exists && !env.test_files.isEmpty
  let test_failures := 0
  let (all_passed, outputs2) :=
    if test_phase then
      let outputs := outputs1 ++
        ["pytest exit=" ++ toString env.pytest_exit ++ "\n" ++ env.pytest_output] ++
        ((env.pytest_output.splitOn "\n").filter
          (fun l => containsStr l "passed" || containsStr l "failed"))
      (if env.pytest_exit != 0 then false else all_passed0, outputs)
    else
      (all_passed0, outputs1 ++ ["No test files found, skipping pytest."])
  { passed := all_passed
    total := env.py_files.length
    failures := compile_failures + test_failures
    output := outputs2 }

/-! ### Reviewer (`agents/reviewer.py`)

The project directory is modelled as the list of files it contains, each a
path relative to the project root together with its text content; `st_size`
is the UTF-8 byte size of that content (files are written with a fixed UTF-8
encoding). -/

/-- One file of a project directory. -/
structure RFile where
  path : String
  content : String
deriving DecidableEq, Repr

/-- Required-file set (`REQUIRED_FILES`). -/
def REQUIRED_FILES : List String := ["main.py", "README.md", "requirements.txt"]

/-- Denylist of dangerous call patterns (`BANNED_PATTERNS`). -/
def BANNED_PATTERNS : List String :=
  ["eval(", "exec(", "__import__(", "subprocess.call(", "os.system("]

/-- Content of the named file, when present. -/
def findFile (files : List RFile) (name : String) : Option String :=
  (files.find? (fun f => f.path == name)).map (fun f => f.content)

/-- Reviewer entry `review_project(project_dir)`: missing required files are blocking
issues; denylisted patterns in `.py` files and undersized README /
empty requirements are warnings; pass iff zero issues. -/
def review_project (files : List RFile) : ReviewReport :=
  let issues := REQUIRED_FILES.filterMap
    (fun fname =>
      if files.any (fun f => f.path == fname) then none
      else some ("Missing required file: " ++ fname))
  let warnings0 := (files.filter (fun f => endsWithStr f.path ".py")).flatMap
    (fun f => BANNED_PATTERNS.filterMap
      (fun pat =>
        if containsStr f.content pat then
          some ("Potentially unsafe pattern \x27" ++ pat ++ "\x27 in " ++ f.path)
        else none))
  let warnings1 :=
    match findFile files "README.md" with
    | some content =>
        if content.utf8ByteSize < 20 then
          warnings0 ++ ["README.md appears to be too short"]
        else warnings0
    | none => warnings0
  let warnings2 :=
    match findFile files "requirements.txt" with
    | some content =>
        if content.utf8ByteSize == 0 then
          warnings1 ++ ["requirements.txt is empty"]
        else warnings1
    | none => warnings1
  let passed := issues.length == 0
  { passed := passed, issues := issues, warnings := warnings2 }

/-! ### Packager (`agents/packager.py`)

Paths are modelled as segment lists. `tarfile.open(...).add(dir, arcname=n)`
adds the directory itself under the name `n` and every member of the
directory prefixed by `n` — the standard directory-to-archive contract the
spec assumes. -/

/-- Archive entries produced by `tar.add(project_dir, arcname)`: the
directory entry plus every member path prefixed with the arcname. -/
def tar_add (members : List (List String)) (arcname : String) : List (List String) :=
  [arcname] :: members.map (fun m => arcname :: m)

/-- Packager entry `package_project(project_dir)`: the archive is the sibling
`<name>.tar.gz` of the project directory `parent ++ [name]` whose `members`
are the directory's contents; returns the archive path and its entries. -/
def package_project (parent : List String) (name : String)
    (members : List (List String)) : List String × List (List String) :=
  let archive_path := parent ++ [name ++ ".tar.gz"]
  (archive_path, tar_add members name)

/-! ### Orchestrator (`core/pipeline.py`)

The six stage components are taken as oracles: each either returns its value
or raises (`Except.error message`, the message being `str(exc)`). The
persistence collaborator is modelled as an event trace: `save r` is an
`await repo.save(job)` call persisting snapshot `r`, and `exec s` is the
execution of stage `s`'s component. -/

/-- Observable pipeline event: a persisted snapshot or a component run. -/
inductive PEvent where
  | save (r : JobRecord)
  | exec (s : PipelineStage)
deriving DecidableEq, Repr

/-- Shape of an event: `(true, stage of the saved record)` for a save,
`(false, stage)` for a component execution. -/
def PEvent.shape : PEvent → Bool × PipelineStage
  | .save r => (true, r.stage)
  | .exec s => (false, s)

/-- Stage of a saved snapshot, `none` for component executions. -/
def PEvent.savedStage : PEvent → Option PipelineStage
  | .save r => some r.stage
  | .exec _ => none

/-- The six stage components as oracles, each fallible. -/
structure StageOracles where
  build_plan : BotSpec → Except String ProjectPlan
  retrieve_context : ProjectPlan → Except String ProjectPlan
  generate_project : ProjectPlan → Except String String
  run_tests : String → Except String TestResult
  review_project : String → Except String ReviewReport
  package_project : String → Except String String
deriving Inhabited

/-- Orchestrator entry `run_pipeline(spec, repo, ...)`: drives the stages in fixed order,
persisting after every transition, catching any stage exception at the top
level only (`except Exception: job.fail(str(exc)); await repo.save(job)`)
and returning the record together with the event trace. -/
def run_pipeline (st : StageOracles) (spec : BotSpec) : JobRecord × List PEvent :=
  let job := JobRecord.new spec
  let ev : List PEvent := [.save job]
  -- 1. Intake — spec already validated
  let job := job.advance .INTAKE
  let ev := ev ++ [.save job]
  -- 2. Plan
  let job := job.advance .PLAN
  let ev := ev ++ [.save job, .exec .PLAN]
  match st.build_plan spec with
  | .error m => let j := job.fail m; (j, ev ++ [.save j])
  | .ok plan =>
  -- 3. Retrieve docs
  let job := job.advance .RETRIEVE_DOCS
  let ev := ev ++ [.save job, .exec .RETRIEVE_DOCS]
  match st.retrieve_context plan with
  | .error m => let j := job.fail m; (j, ev ++ [.save j])
  | .ok plan =>
  -- 4. Generate
  let job := job.advance .GENERATE
  let ev := ev ++ [.save job, .exec .GENERATE]
  match st.generate_project plan with
  | .error m => let j := job.fail m; (j, ev ++ [.save j])
  | .ok project_dir =>
  let job := { job with output_path := some project_dir }
  -- 5. Test
  let job := job.advance .TEST
  let ev := ev ++ [.save job, .exec .TEST]
  match st.run_tests project_dir with
  | .error m => let j := job.fail m; (j, ev ++ [.save j])
  | .ok test_result =>
  let job := { job with test_result := some test_result }
  -- 6. Review
  let job := job.advance .REVIEW
  let ev := ev ++ [.save job, .exec .REVIEW]
  match st.review_project project_dir with
  | .error m => let j := job.fail m; (j, ev ++ [.save j])
  | .ok review =>
  let job := { job with review_report := some review }
  -- 7. Package
  let job := job.advance .PACKAGE
  let ev := ev ++ [.save job, .exec .PACKAGE]
  match st.package_project project_dir with
  | .error m => let j := job.fail m; (j, ev ++ [.save j])
  | .ok _archive =>
  -- 8. Deploy (output to filesystem)
  let job := job.advance .DEPLOY
  let ev := ev ++ [.save job]
  -- Done
  let job := job.advance .DONE
  let ev := ev ++ [.save job]
  (job, ev)

/-! ## Claim-specific concrete inputs -/

/-- Conditional container block of a spec. -/
def dockerBlock (spec : BotSpec) : List String :=
  if spec.include_docker then DOCKER_FILES else []

/-- Conditional CI block of a spec. -/
def ciBlock (spec : BotSpec) : List String :=
  if spec.include_ci then CI_FILES else []

/-- Conditional test-scaffolding block of a spec. -/
def testBlock (spec : BotSpec) : List String :=
  if spec.include_tests then TEST_FILES else []

/-- Failing input for C3: a specification declaring one extra dependency. -/
def c3_spec : BotSpec :=
  { name := "dep-bot"
    platform := .CLI
    description := "A bot with one declared dependency"
    features := ["echo"]
    dependencies := ["requests"]
    env_vars := []
    include_docker := true
    include_ci := true
    include_tests := true
    logging_level := "INFO" }

/-- Concrete tester input for the C4 witness: one compiling file, no tests. -/
def c4_env : TesterEnv :=
  { py_files := [("main.py", 0)]
    tests_dir_exists := false
    test_files := []
    pytest_exit := 0
    pytest_output := "" }

/-- Concrete tester input for the C9 witness: all files compile, pytest
exits non-zero. -/
def c9_env : TesterEnv :=
  { py_files := [("main.py", 0), ("config.py", 0)]
    tests_dir_exists := true
    test_files := ["test_handler.py"]
    pytest_exit := 1
    pytest_output := "1 failed" }

/-- Concrete project for the C5 witness: all required files present, one
denylisted pattern in a Python file. -/
def c5_files : List RFile :=
  [{ path := "main.py", content := "import os\nresult = eval(data)\n" },
   { path := "README.md", content := "This README is long enough to pass." },
   { path := "requirements.txt", content := "click>=8.1.7\n" }]

/-- Loadable template names for the C6 witness. -/
def c6_templates : List String := ["cli/main.py.j2", "README.md.j2"]

/-- Specification for the C6 witness. -/
def c6_spec : BotSpec :=
  { name := "resolve-bot"
    platform := .CLI
    description := "A bot for template resolution"
    features := ["echo"]
    dependencies := []
    env_vars := []
    include_docker := false
    include_ci := false
    include_tests := false
    logging_level := "INFO" }

/-- Plan for the C6 witness: one platform-specific hit, one common hit, one
miss. -/
def c6_plan : ProjectPlan :=
  { spec := c6_spec
    files_to_generate := ["main.py", "README.md", "config.py"]
    platform_deps := ["click>=8.1.7"]
    context_notes := [] }

/-- Plan for the C10 witness: no planned file resolves to a template. -/
def c10_plan : ProjectPlan :=
  { spec := { name := "empty-bot"
              platform := .CUSTOM
              description := "A bot with no resolvable templates"
              features := []
              dependencies := []
              env_vars := []
              include_docker := false
              include_ci := false
              include_tests := false
              logging_level := "INFO" }
    files_to_generate := ["main.py", "README.md"]
    platform_deps := []
    context_notes := [] }

/-- Specification used by the C1 counterexample and witness. -/
def c1_spec : BotSpec :=
  { name := "sample-bot"
    platform := .CLI
    description := "A sample bot"
    features := ["echo"]
    dependencies := []
    env_vars := []
    include_docker := true
    include_ci := true
    include_tests := true
    logging_level := "INFO" }

/-- Stage oracles whose plan stage raises an exception with an empty string
form (`str(exc) == ""`, as for `raise ValueError()`). -/
def c1_emptyMsgStages : StageOracles :=
  { build_plan := fun _ => .error ""
    retrieve_context := fun p => .ok p
    generate_project := fun _ => .ok "/output/sample-bot"
    run_tests := fun _ => .ok { passed := true, total := 0, failures := 0, output := [] }
    review_project := fun _ => .ok { passed := true, issues := [], warnings := [] }
    package_project := fun d => .ok (d ++ ".tar.gz") }

/-- Stage oracles whose test stage raises with a non-empty message. -/
def c1_testFailStages : StageOracles :=
  { build_plan := fun s => .ok (build_plan s)
    retrieve_context := fun p => .ok (retrieve_context p)
    generate_project := fun _ => .ok "/output/sample-bot"
    run_tests := fun _ => .error "forced failure in test stage"
    review_project := fun _ => .ok { passed := true, issues := [], warnings := [] }
    package_project := fun d => .ok (d ++ ".tar.gz") }

/-- Specification for the C2 witness. -/
def c2_spec : BotSpec :=
  { name := "trace-bot"
    platform := .TELEGRAM
    description := "A bot for the success trace"
    features := ["echo"]
    dependencies := ["requests"]
    env_vars := []
    include_docker := false
    include_ci := false
    include_tests := false
    logging_level := "DEBUG" }

/-- Stage oracles on which every stage succeeds. -/
def c2_okStages : StageOracles :=
  { build_plan := fun s => .ok (build_plan s)
    retrieve_context := fun p => .ok (retrieve_context p)
    generate_project := fun _ => .ok "/output/trace-bot"
    run_tests := fun _ => .ok { passed := true, total := 3, failures := 0, output := [] }
    review_project := fun _ => .ok { passed := true, issues := [], warnings := [] }
    package_project := fun d => .ok (d ++ ".tar.gz") }

/-! ## Theorems -/

/-- Characterisation of the per-file generation loop: rendered files are
exactly the planned paths with a resolvable template, in plan order, and each
unresolvable path contributes exactly one warning. -/
theorem gen_loop_spec (templates : List String) (platform : String)
    (l : List String) (r w : List String) :
    gen_loop templates platform l (r, w)
      = (r ++ l.filter (fun rel => (_resolve_template templates platform rel).isSome),
         w ++ l.filterMap
           (fun rel => if (_resolve_template templates platform rel).isSome then none
                       else some ("No template found for " ++ rel ++ ", skipping"))) := by
  induction l generalizing r w with
  | nil => simp [gen_loop]
  | cons rel rest ih =>
    cases hres : _resolve_template templates platform rel <;>
      simp [gen_loop, hres, ih, List.append_assoc]

/-- C7: for every pair of specifications differing only in one of the
container/CI/test toggles, the plan with the toggle disabled has a file list
equal to the other plan's file list with exactly the corresponding fixed
file block removed and nothing else changed. -/
theorem plan_toggle_removes_exactly_its_block (spec : BotSpec) :
    ((build_plan { spec with include_docker := true }).files_to_generate
        = BASE_FILES ++ DOCKER_FILES ++ ciBlock spec ++ testBlock spec
      ∧ (build_plan { spec with include_docker := false }).files_to_generate
        = BASE_FILES ++ ciBlock spec ++ testBlock spec)
    ∧ ((build_plan { spec with include_ci := true }).files_to_generate
        = BASE_FILES ++ dockerBlock spec ++ CI_FILES ++ testBlock spec
      ∧ (build_plan { spec with include_ci := false }).files_to_generate
        = BASE_FILES ++ dockerBlock spec ++ testBlock spec)
    ∧ ((build_plan { spec with include_tests := true }).files_to_generate
        = BASE_FILES ++ dockerBlock spec ++ ciBlock spec ++ TEST_FILES
      ∧ (build_plan { spec with include_tests := false }).files_to_generate
        = BASE_FILES ++ dockerBlock spec ++ ciBlock spec) := by
  obtain ⟨n, p, d, f, deps, ev, idock, ici, itest, ll⟩ := spec
  cases idock <;> cases ici <;> cases itest <;>
    simp [build_plan, dockerBlock, ciBlock, testBlock, List.append_assoc]

/-- C3 (code bug): the combined dependency list exposed to every rendered
template as the `dependencies` context entry is
`plan.platform_deps ++ plan.spec.dependencies`, but the planner already
stored the combined list (platform deps followed by declared deps) in
`platform_deps`, so every declared dependency appears twice in the rendered
context — not once, as the spec states. -/
theorem ctx_dependencies_declared_twice :
    (∀ spec : BotSpec,
      (template_ctx (build_plan spec)).dependencies
        = PLATFORM_DEPS spec.platform ++ spec.dependencies ++ spec.dependencies)
    ∧ (template_ctx (build_plan c3_spec)).dependencies
        = ["click>=8.1.7", "requests", "requests"]
    ∧ (template_ctx (build_plan c3_spec)).dependencies.count "requests" = 2 := by
  refine ⟨fun spec => ?_, rfl, by decide⟩
  simp [template_ctx, build_plan, List.append_assoc]

/-- C8: the packager produces an archive named `<directory-name>.tar.gz`
placed in the project directory's parent, containing the directory as its
single top-level entry, and returns that archive's path. -/
theorem package_project_sibling_single_toplevel (parent : List String)
    (name : String) (members : List (List String)) :
    (package_project parent name members).1 = parent ++ [name ++ ".tar.gz"]
    ∧ [name] ∈ (package_project parent name members).2
    ∧ ∀ e ∈ (package_project parent name members).2, e.head? = some name := by
  refine ⟨rfl, by simp [package_project, tar_add], ?_⟩
  intro e he
  simp [package_project, tar_add] at he
  rcases he with rfl | ⟨m, _, rfl⟩ <;> rfl

/-- Witness for C8 at a concrete project directory with two members. -/
theorem package_project_sibling_single_toplevel_witness :
    (package_project ["tmp", "out"] "dep-bot"
        [["main.py"], ["bot", "handler.py"]]).1 = ["tmp", "out", "dep-bot.tar.gz"]
    ∧ [["dep-bot"], ["dep-bot", "main.py"], ["dep-bot", "bot", "handler.py"]].head? =
        some ["dep-bot"]
    ∧ ["dep-bot", "main.py"].head? = some "dep-bot" := by
  refine ⟨(package_project_sibling_single_toplevel ["tmp", "out"] "dep-bot"
    [["main.py"], ["bot", "handler.py"]]).1, rfl, ?_⟩
  exact (package_project_sibling_single_toplevel ["tmp", "out"] "dep-bot"
    [["main.py"], ["bot", "handler.py"]]).2.2 ["dep-bot", "main.py"] (by decide)

/-- C4: the tester's outcome has `passed = true` iff there are zero compile
failures and either no test phase was run (no test files present, in which
case the skip is recorded in the output) or the test runner exited with
status zero. -/
theorem run_tests_passed_iff (env : TesterEnv) :
    ((run_tests env).passed = true ↔
      ((env.py_files.filter (fun p => p.2 != 0)).length = 0
        ∧ ((env.tests_dir_exists && !env.test_files.isEmpty) = true → env.pytest_exit = 0)))
    ∧ ((env.tests_dir_exists && !env.test_files.isEmpty) = false →
        "No test files found, skipping pytest." ∈ (run_tests env).output) := by
  unfold run_tests
  cases htd : env.tests_dir_exists <;> cases hte : env.test_files.isEmpty <;>
    cases hcf : (env.py_files.filter (fun p => p.2 != 0)).length <;>
      cases hpe : env.pytest_exit <;>
        simp_all

/-- Witness for C4: a project with one compiling file and no test files
passes, and the skipped test phase is recorded. -/
theorem run_tests_passed_iff_witness :
    (run_tests c4_env).passed = true
    ∧ "No test files found, skipping pytest." ∈ (run_tests c4_env).output :=
  ⟨(run_tests_passed_iff c4_env).1.mpr (by decide),
   (run_tests_passed_iff c4_env).2 (by decide)⟩

/-- C9: the `failures` field counts only compile failures — when every Python
file compiles but the test runner exits non-zero, the outcome has
`passed = false` and `failures = 0`. -/
theorem run_tests_failures_counts_only_compile (env : TesterEnv)
    (h1 : ∀ p ∈ env.py_files, p.2 = 0)
    (h2 : env.tests_dir_exists = true)
    (h3 : env.test_files ≠ [])
    (h4 : env.pytest_exit ≠ 0) :
    (run_tests env).passed = false ∧ (run_tests env).failures = 0 := by
  unfold run_tests
  have hcf : (env.py_files.filter (fun p => p.2 != 0)) = [] := by
    rw [List.filter_eq_nil_iff]
    intro p hp
    simp [h1 p hp]
  simp_all
  intro a b hab
  exact h1 a b hab

/-- Witness for C9: two compiling files, pytest exits 1. -/
theorem run_tests_failures_counts_only_compile_witness :
    (run_tests c9_env).passed = false ∧ (run_tests c9_env).failures = 0 :=
  run_tests_failures_counts_only_compile c9_env (by decide) rfl (by decide) (by decide)

/-- C5: the review outcome has `passed = true` iff the blocking-issues list
is empty; `passed` is determined solely by the presence of the required
files, and every denylisted-pattern match is recorded as a warning. -/
theorem review_passed_iff_no_issues (files : List RFile) :
    ((review_project files).passed = true ↔ (review_project files).issues = [])
    ∧ ((review_project files).passed
        = REQUIRED_FILES.all (fun fname => files.any (fun f => f.path == fname)))
    ∧ (∀ f ∈ files, endsWithStr f.path ".py" = true →
        ∀ pat ∈ BANNED_PATTERNS, containsStr f.content pat = true →
          ("Potentially unsafe pattern \x27" ++ pat ++ "\x27 in " ++ f.path)
            ∈ (review_project files).warnings) := by
  unfold review_project
  refine ⟨?_, ?_, ?_⟩
  · simp [List.length_eq_zero]
  · simp [REQUIRED_FILES]
    cases h1 : files.any (fun f => f.path == "main.py") <;>
      cases h2 : files.any (fun f => f.path == "README.md") <;>
        cases h3 : files.any (fun f => f.path == "requirements.txt") <;>
          simp_all
  · intro f hf hpy pat hpat hcon
    have hmem : ("Potentially unsafe pattern \x27" ++ pat ++ "\x27 in " ++ f.path)
        ∈ (files.filter (fun f => endsWithStr f.path ".py")).flatMap
            (fun f => BANNED_PATTERNS.filterMap
              (fun pat =>
                if containsStr f.content pat then
                  some ("Potentially unsafe pattern \x27" ++ pat ++ "\x27 in " ++ f.path)
                else none)) := by
      simp only [List.mem_flatMap, List.mem_filter, List.mem_filterMap]
      exact ⟨f, ⟨hf, hpy⟩, pat, hpat, by simp [hcon]⟩
    cases hR : findFile files "README.md" <;> cases hQ : findFile files "requirements.txt" <;>
      simp [hR, hQ, hmem] <;> split_ifs <;> simp [hmem]

/-- Witness for C5: a project with all required files and one denylisted
pattern passes review while the pattern is reported as a warning. -/
theorem review_passed_iff_no_issues_witness :
    (review_project c5_files).passed = true
    ∧ ("Potentially unsafe pattern \x27eval(\x27 in main.py")
        ∈ (review_project c5_files).warnings := by
  constructor
  · rw [(review_passed_iff_no_issues c5_files).2.1]
    decide
  · exact (review_passed_iff_no_issues c5_files).2.2
      { path := "main.py", content := "import os\nresult = eval(data)\n" }
      (by decide) (by decide) "eval(" (by decide) (by decide)

/-- C6: template resolution tries the platform-prefixed candidate strictly
before the platform-agnostic one and uses the first that exists; when
neither exists, generation skips the file with a recorded warning and
continues over the remaining files without raising. -/
theorem template_resolution_platform_first (templates : List String)
    (platform rel_path : String) :
    (templates.contains (platform ++ "/" ++ rel_path ++ ".j2") = true →
        _resolve_template templates platform rel_path
          = some (platform ++ "/" ++ rel_path ++ ".j2"))
    ∧ (templates.contains (platform ++ "/" ++ rel_path ++ ".j2") = false →
        templates.contains (rel_path ++ ".j2") = true →
        _resolve_template templates platform rel_path = some (rel_path ++ ".j2"))
    ∧ (templates.contains (platform ++ "/" ++ rel_path ++ ".j2") = false →
        templates.contains (rel_path ++ ".j2") = false →
        _resolve_template templates platform rel_path = none)
    ∧ (∀ (a b : Bool) (plan : ProjectPlan) (td od : String),
        (a || b) = true →
        (generate_project a b templates plan td od).2 =
          .ok { project_dir := od ++ "/" ++ plan.spec.name
                rendered := plan.files_to_generate.filter
                  (fun r => (_resolve_template templates plan.spec.platform.value r).isSome)
                warnings := plan.files_to_generate.filterMap
                  (fun r =>
                    if (_resolve_template templates plan.spec.platform.value r).isSome
                    then none
                    else some ("No template found for " ++ r ++ ", skipping")) }) := by
  refine ⟨?_, ?_, ?_, ?_⟩
  · intro h1
    unfold _resolve_template
    rw [List.find?_cons_of_pos _ h1]
  · intro h1 h2
    unfold _resolve_template
    rw [List.find?_cons_of_neg _ (by simpa using h1), List.find?_cons_of_pos _ h2]
  · intro h1 h2
    unfold _resolve_template
    rw [List.find?_cons_of_neg _ (by simpa using h1),
      List.find?_cons_of_neg _ (by simpa using h2)]
    rfl
  · intro a b plan td od hab
    cases a <;> cases b <;> simp_all [generate_project, _build_jinja_env, gen_loop_spec]

/-- Witness for C6: one platform-specific hit, one common hit, one miss, and
the concrete generation outcome over that plan. -/
theorem template_resolution_platform_first_witness :
    _resolve_template c6_templates "cli" "main.py" = some "cli/main.py.j2"
    ∧ _resolve_template c6_templates "cli" "README.md" = some "README.md.j2"
    ∧ _resolve_template c6_templates "cli" "config.py" = none
    ∧ (generate_project true false c6_templates c6_plan "/templates" "/out").2 =
        .ok { project_dir := "/out/resolve-bot"
              rendered := ["main.py", "README.md"]
              warnings := ["No template found for config.py, skipping"] } := by
  refine ⟨(template_resolution_platform_first c6_templates "cli" "main.py").1 (by decide),
    (template_resolution_platform_first c6_templates "cli" "README.md").2.1
      (by decide) (by decide),
    (template_resolution_platform_first c6_templates "cli" "config.py").2.2.1
      (by decide) (by decide), ?_⟩
  have h := (template_resolution_platform_first c6_templates "cli" "config.py").2.2.2
    true false c6_plan "/templates" "/out" rfl
  rw [h]
  rfl

/-- C10: whenever the templates root or its `common` subdirectory exists,
generation returns `output_dir/<spec name>` (created before the environment
is built, hence existing on return, even when zero planned files resolve);
it raises exactly when neither location exists. -/
theorem generate_project_dir_and_only_error (a b : Bool) (templates : List String)
    (plan : ProjectPlan) (td od : String) :
    ((generate_project a b templates plan td od).1 = [od ++ "/" ++ plan.spec.name])
    ∧ ((a || b) = true → ∃ r, (generate_project a b templates plan td od).2 = .ok r
          ∧ r.project_dir = od ++ "/" ++ plan.spec.name)
    ∧ ((a || b) = false →
        (generate_project a b templates plan td od).2
          = .error ("Templates directory not found: " ++ td)) := by
  cases a <;> cases b
  · exact ⟨rfl, fun h => by simp at h, fun _ => rfl⟩
  · exact ⟨rfl, fun _ => ⟨_, rfl, rfl⟩, fun h => by simp at h⟩
  · exact ⟨rfl, fun _ => ⟨_, rfl, rfl⟩, fun h => by simp at h⟩
  · exact ⟨rfl, fun _ => ⟨_, rfl, rfl⟩, fun h => by simp at h⟩

/-- Witness for C10: with an existing templates root but no loadable
template at all, generation still returns the project directory; with
neither root nor `common`, it raises. -/
theorem generate_project_dir_and_only_error_witness :
    ((generate_project true false [] c10_plan "/templates" "/out").1 = ["/out/empty-bot"])
    ∧ (∃ r, (generate_project true false [] c10_plan "/templates" "/out").2 = .ok r
        ∧ r.project_dir = "/out/empty-bot")
    ∧ ((generate_project false false [] c10_plan "/templates" "/out").2
        = .error "Templates directory not found: /templates") :=
  ⟨(generate_project_dir_and_only_error true false [] c10_plan "/templates" "/out").1,
   (generate_project_dir_and_only_error true false [] c10_plan "/templates" "/out").2.1 rfl,
   (generate_project_dir_and_only_error false false [] c10_plan "/templates" "/out").2.2 rfl⟩

/-- C1 (amended): whichever stage component raises, with whatever message
`m = str(exc)`, the run ends in the terminal `FAILED` stage with exactly that
captured message recorded (`error = some m` — hence empty exactly when the
exception has an empty string form), the final pipeline event persists the
returned record, and in general every run not reaching the success terminal
is such a caught failure with a recorded message. -/
theorem pipeline_failure_caught (st : StageOracles) (spec : BotSpec) :
    (∀ m, st.build_plan spec = .error m →
        (run_pipeline st spec).1.stage = PipelineStage.FAILED
        ∧ (run_pipeline st spec).1.error = some m
        ∧ ∃ pre, (run_pipeline st spec).2
            = pre ++ [PEvent.save (run_pipeline st spec).1])
    ∧ (∀ plan m, st.build_plan spec = .ok plan →
        st.retrieve_context plan = .error m →
        (run_pipeline st spec).1.stage = PipelineStage.FAILED
        ∧ (run_pipeline st spec).1.error = some m
        ∧ ∃ pre, (run_pipeline st spec).2
            = pre ++ [PEvent.save (run_pipeline st spec).1])
    ∧ (∀ plan plan2 m, st.build_plan spec = .ok plan →
        st.retrieve_context plan = .ok plan2 →
        st.generate_project plan2 = .error m →
        (run_pipeline st spec).1.stage = PipelineStage.FAILED
        ∧ (run_pipeline st spec).1.error = some m
        ∧ ∃ pre, (run_pipeline st spec).2
            = pre ++ [PEvent.save (run_pipeline st spec).1])
    ∧ (∀ plan plan2 project_dir m, st.build_plan spec = .ok plan →
        st.retrieve_context plan = .ok plan2 →
        st.generate_project plan2 = .ok project_dir →
        st.run_tests project_dir = .error m →
        (run_pipeline st spec).1.stage = PipelineStage.FAILED
        ∧ (run_pipeline st spec).1.error = some m
        ∧ ∃ pre, (run_pipeline st spec).2
            = pre ++ [PEvent.save (run_pipeline st spec).1])
    ∧ (∀ plan plan2 project_dir tr m, st.build_plan spec = .ok plan →
        st.retrieve_context plan = .ok plan2 →
        st.generate_project plan2 = .ok project_dir →
        st.run_tests project_dir = .ok tr →
        st.review_project project_dir = .error m →
        (run_pipeline st spec).1.stage = PipelineStage.FAILED
        ∧ (run_pipeline st spec).1.error = some m
        ∧ ∃ pre, (run_pipeline st spec).2
            = pre ++ [PEvent.save (run_pipeline st spec).1])
    ∧ (∀ plan plan2 project_dir tr rev m, st.build_plan spec = .ok plan →
        st.retrieve_context plan = .ok plan2 →
        st.generate_project plan2 = .ok project_dir →
        st.run_tests project_dir = .ok tr →
        st.review_project project_dir = .ok rev →
        st.package_project project_dir = .error m →
        (run_pipeline st spec).1.stage = PipelineStage.FAILED
        ∧ (run_pipeline st spec).1.error = some m
        ∧ ∃ pre, (run_pipeline st spec).2
            = pre ++ [PEvent.save (run_pipeline st spec).1])
    ∧ ((run_pipeline st spec).1.stage ≠ PipelineStage.DONE →
        (run_pipeline st spec).1.stage = PipelineStage.FAILED
        ∧ (∃ m, (run_pipeline st spec).1.error = some m)
        ∧ ∃ pre, (run_pipeline st spec).2
            = pre ++ [PEvent.save (run_pipeline st spec).1]) := by
  refine ⟨?_, ?_, ?_, ?_, ?_, ?_, ?_⟩
  · intro m hm
    unfold run_pipeline
    rw [hm]
    exact ⟨rfl, rfl, ⟨_, rfl⟩⟩
  · intro plan m h0 h1
    unfold run_pipeline
    rw [h0]; dsimp only; rw [h1]
    exact ⟨rfl, rfl, ⟨_, rfl⟩⟩
  · intro plan plan2 m h0 h1 h2
    unfold run_pipeline
    rw [h0]; dsimp only; rw [h1]; dsimp only; rw [h2]
    exact ⟨rfl, rfl, ⟨_, rfl⟩⟩
  · intro plan plan2 project_dir m h0 h1 h2 h3
    unfold run_pipeline
    rw [h0]; dsimp only; rw [h1]; dsimp only; rw [h2]; dsimp only; rw [h3]
    exact ⟨rfl, rfl, ⟨_, rfl⟩⟩
  · intro plan plan2 project_dir tr m h0 h1 h2 h3 h4
    unfold run_pipeline
    rw [h0]; dsimp only; rw [h1]; dsimp only; rw [h2]; dsimp only; rw [h3]
    dsimp only; rw [h4]
    exact ⟨rfl, rfl, ⟨_, rfl⟩⟩
  · intro plan plan2 project_dir tr rev m h0 h1 h2 h3 h4 h5
    unfold run_pipeline
    rw [h0]; dsimp only; rw [h1]; dsimp only; rw [h2]; dsimp only; rw [h3]
    dsimp only; rw [h4]; dsimp only; rw [h5]
    exact ⟨rfl, rfl, ⟨_, rfl⟩⟩
  · intro h
    revert h
    unfold run_pipeline
    cases st.build_plan spec with
    | error m => exact fun _ => ⟨rfl, ⟨m, rfl⟩, ⟨_, rfl⟩⟩
    | ok plan =>
    dsimp only
    cases st.retrieve_context plan with
    | error m => exact fun _ => ⟨rfl, ⟨m, rfl⟩, ⟨_, rfl⟩⟩
    | ok plan2 =>
    dsimp only
    cases st.generate_project plan2 with
    | error m => exact fun _ => ⟨rfl, ⟨m, rfl⟩, ⟨_, rfl⟩⟩
    | ok project_dir =>
    dsimp only
    cases st.run_tests project_dir with
    | error m => exact fun _ => ⟨rfl, ⟨m, rfl⟩, ⟨_, rfl⟩⟩
    | ok tr =>
    dsimp only
    cases st.review_project project_dir with
    | error m => exact fun _ => ⟨rfl, ⟨m, rfl⟩, ⟨_, rfl⟩⟩
    | ok rev =>
    dsimp only
    cases st.package_project project_dir with
    | error m => exact fun _ => ⟨rfl, ⟨m, rfl⟩, ⟨_, rfl⟩⟩
    | ok archive => exact fun h => absurd rfl h

/-- Counterexample for C1 as stated: when a stage raises an exception whose
string form is empty, the failed record's error message is the empty
string, so a failed job does not always carry a non-empty error message. -/
theorem pipeline_failure_empty_message :
    (run_pipeline c1_emptyMsgStages c1_spec).1.stage = PipelineStage.FAILED
    ∧ (run_pipeline c1_emptyMsgStages c1_spec).1.error = some "" :=
  ⟨rfl, rfl⟩

/-- Witness for C1 (amended) at a run whose test stage raises: the recorded
error message is exactly the raised message. -/
theorem pipeline_failure_caught_witness :
    (run_pipeline c1_testFailStages c1_spec).1.stage = PipelineStage.FAILED
    ∧ (run_pipeline c1_testFailStages c1_spec).1.error
        = some "forced failure in test stage"
    ∧ (∃ pre, (run_pipeline c1_testFailStages c1_spec).2
        = pre ++ [PEvent.save (run_pipeline c1_testFailStages c1_spec).1]) :=
  (pipeline_failure_caught c1_testFailStages c1_spec).2.2.2.1
    (build_plan c1_spec) (retrieve_context (build_plan c1_spec))
    "/output/sample-bot" "forced failure in test stage" rfl rfl rfl rfl

set_option maxHeartbeats 1000000 in
/-- C2: every successful run persists the job record through exactly the
stage order INTAKE, PLAN, RETRIEVE_DOCS, GENERATE, TEST, REVIEW, PACKAGE,
DEPLOY, DONE — never backward and never skipping — and each transition's
save precedes the corresponding stage component's execution (the full
event trace is fixed). -/
theorem pipeline_success_trace (st : StageOracles) (spec : BotSpec)
    (h : (run_pipeline st spec).1.stage = PipelineStage.DONE) :
    ((run_pipeline st spec).2.map PEvent.shape =
      [(true, .INTAKE), (true, .INTAKE), (true, .PLAN), (false, .PLAN),
       (true, .RETRIEVE_DOCS), (false, .RETRIEVE_DOCS),
       (true, .GENERATE), (false, .GENERATE),
       (true, .TEST), (false, .TEST),
       (true, .REVIEW), (false, .REVIEW),
       (true, .PACKAGE), (false, .PACKAGE),
       (true, .DEPLOY), (true, .DONE)])
    ∧ (((run_pipeline st spec).2.filterMap PEvent.savedStage).dedup =
        [.INTAKE, .PLAN, .RETRIEVE_DOCS, .GENERATE, .TEST, .REVIEW,
         .PACKAGE, .DEPLOY, .DONE]) := by
  revert h
  unfold run_pipeline
  cases st.build_plan spec with
  | error m => exact fun h => PipelineStage.noConfusion h
  | ok plan =>
  dsimp only
  cases st.retrieve_context plan with
  | error m => exact fun h => PipelineStage.noConfusion h
  | ok plan2 =>
  dsimp only
  cases st.generate_project plan2 with
  | error m => exact fun h => PipelineStage.noConfusion h
  | ok project_dir =>
  dsimp only
  cases st.run_tests project_dir with
  | error m => exact fun h => PipelineStage.noConfusion h
  | ok tr =>
  dsimp only
  cases st.review_project project_dir with
  | error m => exact fun h => PipelineStage.noConfusion h
  | ok rev =>
  dsimp only
  cases st.package_project project_dir with
  | error m => exact fun h => PipelineStage.noConfusion h
  | ok archive =>
    refine fun _ => ⟨?_, ?_⟩
    · simp [PEvent.shape, JobRecord.advance, JobRecord.new]
    · simp only [PEvent.savedStage, JobRecord.advance, JobRecord.new, List.filterMap_cons,
        List.filterMap_nil, List.append_assoc, List.cons_append, List.nil_append]
      decide

/-- Witness for C2 at a run on which every stage succeeds. -/
theorem pipeline_success_trace_witness :
    ((run_pipeline c2_okStages c2_spec).2.map PEvent.shape =
      [(true, .INTAKE), (true, .INTAKE), (true, .PLAN), (false, .PLAN),
       (true, .RETRIEVE_DOCS), (false, .RETRIEVE_DOCS),
       (true, .GENERATE), (false, .GENERATE),
       (true, .TEST), (false, .TEST),
       (true, .REVIEW), (false, .REVIEW),
       (true, .PACKAGE), (false, .PACKAGE),
       (true, .DEPLOY), (true, .DONE)])
    ∧ (((run_pipeline c2_okStages c2_spec).2.filterMap PEvent.savedStage).dedup =
        [.INTAKE, .PLAN, .RETRIEVE_DOCS, .GENERATE, .TEST, .REVIEW,
         .PACKAGE, .DEPLOY, .DONE]) :=
  pipeline_success_trace c2_okStages c2_spec (by decide)

end BotForge
